import Mathlib

/-!
Shallow embedding of the `NCBIRetriever` pipeline from
`src/2025py2_28494/s28494_2025-2.py`.

The remote Entrez gateway is modelled as a record of three pure fallible
functions (taxon lookup, search, fetch); the retriever's instance
attributes `webenv`, `query_key`, `count` become an explicit state record
with `Option` fields (an attribute that was never assigned is `none`,
matching the `hasattr` checks in `fetch_records`).  Printed diagnostics
are collected in a `msgs` list; gateway fetch requests actually issued are
collected in a `calls` trace.  Python truthiness of the optional length
bounds (`if min_length:`) is modelled by `pyTruthy`.
-/

namespace PBIO

/-- Python truthiness of an optional integer: `None` and `0` are falsy. -/
def pyTruthy : Option Int → Bool
  | none => false
  | some m => decide (m ≠ 0)

/-- The taxon clause `txid{taxid}[Organism]` of the search term. -/
def taxonClause (taxid : String) : String :=
  "txid" ++ taxid ++ "[Organism]"

/-- The minimum-length clause `{min_length}:1000000[SLEN]` (line 35). -/
def minClause (m : Int) : String :=
  toString m ++ ":1000000[SLEN]"

/-- The maximum-length clause `0:{max_length}[SLEN]` (line 37). -/
def maxClause (m : Int) : String :=
  "0:" ++ toString m ++ "[SLEN]"

/-- The search term built at lines 33-37: start from the taxon clause and
append an ` AND `-joined length clause for each truthy bound. -/
def buildSearchTerm (taxid : String) (min_length max_length : Option Int) :
    String :=
  let t0 := taxonClause taxid
  let t1 := if pyTruthy min_length then
      t0 ++ " AND " ++ minClause (min_length.getD 0) else t0
  if pyTruthy max_length then
      t1 ++ " AND " ++ maxClause (max_length.getD 0) else t1

/-- The list of clauses of the search term, in emission order. -/
def searchClauses (taxid : String) (min_length max_length : Option Int) :
    List String :=
  [taxonClause taxid]
    ++ (if pyTruthy min_length then [minClause (min_length.getD 0)] else [])
    ++ (if pyTruthy max_length then [maxClause (max_length.getD 0)] else [])

/-- Left-to-right joining of clauses with ` AND `. -/
def joinAnd (cs : List String) : String :=
  match cs with
  | [] => ""
  | c :: rest => rest.foldl (fun acc d => acc ++ " AND " ++ d) c

/-- A parsed sequence record (the fields the renderer reads: `record.id`,
`record.seq`, `record.description`; the length is computed as
`len(record.seq)`). -/
structure SeqRecord where
  id : String
  seq : String
  description : String
deriving DecidableEq

/-- `len(record.seq)`. -/
def recLen (r : SeqRecord) : Nat := r.seq.length

/-- The parsed body of a successful `Entrez.esearch` response:
`Count`, `WebEnv`, `QueryKey`. -/
structure SearchGwResult where
  count : Nat
  webenv : String
  queryKey : String
deriving DecidableEq

/-- The arguments of an `Entrez.efetch(db="nucleotide", ...)` request
issued by `fetch_records` (lines 67-75). -/
structure FetchRequest where
  retstart : Int
  retmax : Int
  webenv : String
  queryKey : String
deriving DecidableEq

/-- The remote Entrez gateway, modelled as a fixed function of each
request; `Except.error` is a raised exception (network/service fault,
missing organism, parse failure). -/
structure Gateway where
  resolveTaxon : String → Except String String
  esearch : String → Except String SearchGwResult
  efetch : FetchRequest → Except String (List SeqRecord)

/-- The retriever's session attributes.  `none` models an attribute that
has never been assigned (so `hasattr` is false). -/
structure RetrieverState where
  webenv : Option String
  query_key : Option String
  count : Option Nat
deriving DecidableEq

/-- A fresh retriever: no session attribute has been set. -/
def initState : RetrieverState := ⟨none, none, none⟩

def searchingMsg (taxid : String) : String :=
  "Searching for records with taxID: " ++ taxid

def organismMsg (organism taxid : String) : String :=
  "Organism: " ++ organism ++ " (TaxID: " ++ taxid ++ ")"

def noRecordsMsg (organism : String) : String :=
  "No records found for " ++ organism ++ " with the specified criteria."

def foundMsg (count : Nat) : String :=
  "Found " ++ toString count ++ " records meeting the criteria."

def searchErrMsg (taxid e : String) : String :=
  "Error searching TaxID " ++ taxid ++ ": " ++ e

def noSessionMsg : String :=
  "No search results to fetch. Run search_taxid() first."

def fetchErrMsg (e : String) : String :=
  "Error fetching records: " ++ e

/-- Result of a `search_taxid` call: the Python return value (`none` is
Python `None`), the printed diagnostics, and the retriever state after
the call. -/
structure SearchOutput where
  ret : Option Nat
  msgs : List String
  st : RetrieverState
deriving DecidableEq

/-- `NCBIRetriever.search_taxid` (lines 22-57): resolve the taxid, build
the search term, run the search; on `count == 0` print and return `None`;
on success store `webenv`, `query_key`, `count` and return the count; any
exception is caught and printed, returning `None`. -/
def search_taxid (gw : Gateway) (st : RetrieverState) (taxid : String)
    (min_length max_length : Option Int) : SearchOutput :=
  let m0 := [searchingMsg taxid]
  match gw.resolveTaxon taxid with
  | .error e => ⟨none, m0 ++ [searchErrMsg taxid e], st⟩
  | .ok organism =>
    let m1 := m0 ++ [organismMsg organism taxid]
    match gw.esearch (buildSearchTerm taxid min_length max_length) with
    | .error e => ⟨none, m1 ++ [searchErrMsg taxid e], st⟩
    | .ok res =>
      if res.count = 0 then
        ⟨none, m1 ++ [noRecordsMsg organism], st⟩
      else
        ⟨some res.count, m1 ++ [foundMsg res.count],
          ⟨some res.webenv, some res.queryKey, some res.count⟩⟩

/-- Result of a `fetch_records` call: the returned record list, the
printed diagnostics, the retriever state after the call, and the trace of
gateway fetch requests actually issued. -/
structure FetchOutput where
  ret : List SeqRecord
  msgs : List String
  st : RetrieverState
  calls : List FetchRequest
deriving DecidableEq

/-- `NCBIRetriever.fetch_records` (lines 59-79): if either session
attribute is missing, print and return `[]` without contacting the
gateway; otherwise clamp the batch size to `min(max_records, 500)`, issue
the fetch, and return the parsed records (or `[]` with a diagnostic if
the gateway call raises). -/
def fetch_records (gw : Gateway) (st : RetrieverState)
    (start max_records : Int) : FetchOutput :=
  match st.webenv, st.query_key with
  | some we, some qk =>
    let batch_size := min max_records 500
    let req : FetchRequest := ⟨start, batch_size, we, qk⟩
    match gw.efetch req with
    | .ok recs => ⟨recs, [], st, [req]⟩
    | .error e => ⟨[], [fetchErrMsg e], st, [req]⟩
  | _, _ => ⟨[], [noSessionMsg], st, []⟩

/-- The CSV header row written at line 87. -/
def headerRow : List String :=
  ["Accession Number", "Sequence Length", "Description"]

/-- The data row written for one record (lines 90-94). -/
def recordRow (r : SeqRecord) : List String :=
  [r.id, toString (recLen r), r.description]

/-- `NCBIRetriever.generate_csv_report` (lines 81-98), modelled as the
rows written to the CSV file: the header row, then one row per record in
input order. -/
def generate_csv_report (records : List SeqRecord) : List (List String) :=
  headerRow :: records.map recordRow

/-- `sorted(records, key=lambda rec: len(rec.seq), reverse=True)`
(line 104): a stable descending sort by sequence length.  Python's
`sorted` is stable, and `List.insertionSort` with this total transitive
relation computes exactly the stable sort: records of equal length keep
their input order. -/
def sortDesc (records : List SeqRecord) : List SeqRecord :=
  records.insertionSort (fun a b => recLen b ≤ recLen a)

/-- `NCBIRetriever.generate_plot` (lines 100-125), modelled as the data
series handed to the plotting backend: the accession numbers and the
sequence lengths, both read off the length-sorted record list. -/
def generate_plot (records : List SeqRecord) : List String × List Nat :=
  let sorted_records := sortDesc records
  (sorted_records.map SeqRecord.id, sorted_records.map recLen)

instance : IsTotal SeqRecord (fun a b => recLen b ≤ recLen a) :=
  ⟨fun a b => Nat.le_total (recLen b) (recLen a)⟩

instance : IsTrans SeqRecord (fun a b => recLen b ≤ recLen a) :=
  ⟨fun _ _ _ hab hbc => le_trans hbc hab⟩

/-- A gateway whose search succeeds with `Count == 0`: the taxid
resolves, the search replies, no record matches. -/
def gwEmpty : Gateway where
  resolveTaxon := fun _ => .ok "Homo sapiens"
  esearch := fun _ => .ok ⟨0, "MCID_abc", "1"⟩
  efetch := fun _ => .ok []

/-- A gateway whose search call raises (transport/service fault) after
the taxid resolved. -/
def gwFault : Gateway where
  resolveTaxon := fun _ => .ok "Homo sapiens"
  esearch := fun _ => .error "HTTP Error 500"
  efetch := fun _ => .ok []

/-- A gateway on which everything succeeds, with 42 matching records. -/
def gwOk : Gateway where
  resolveTaxon := fun _ => .ok "Homo sapiens"
  esearch := fun _ => .ok ⟨42, "WE1", "QK1"⟩
  efetch := fun _ => .ok []

/-- A retriever state after some successful search: both session
attributes are set. -/
def stSession : RetrieverState := ⟨some "WE1", some "QK1", some 42⟩

theorem buildSearchTerm_eq_joinAnd (t : String) (a b : Option Int) :
    buildSearchTerm t a b = joinAnd (searchClauses t a b) := by
  rcases a with _ | m <;> rcases b with _ | k <;>
    simp only [buildSearchTerm, searchClauses, pyTruthy, joinAnd] <;>
    split <;> simp [joinAnd, List.foldl] <;> split <;> simp [List.foldl]

/-- Helper: `fetch_records` never writes any session attribute. -/
theorem fetch_records_st (gw : Gateway) (st : RetrieverState)
    (start max_records : Int) :
    (fetch_records gw st start max_records).st = st := by
  rcases st with ⟨w, q, c⟩
  rcases w with _ | we
  · rfl
  · rcases q with _ | qk
    · rfl
    · unfold fetch_records
      rcases hgw : gw.efetch ⟨start, min max_records 500, we, qk⟩ with e | recs <;>
        simp [hgw]

/-- Helper: when `search_taxid` returns `None`, the retriever state is
exactly what it was before the call. -/
theorem search_ret_none_st (gw : Gateway) (st : RetrieverState)
    (taxid : String) (a b : Option Int)
    (h : (search_taxid gw st taxid a b).ret = none) :
    (search_taxid gw st taxid a b).st = st := by
  unfold search_taxid at h ⊢
  rcases hr : gw.resolveTaxon taxid with e | org
  · simp [hr]
  · rcases hs : gw.esearch (buildSearchTerm taxid a b) with e | res
    · simp [hr, hs]
    · by_cases hc : res.count = 0
      · simp [hr, hs, hc]
      · simp [hr, hs, hc] at h

/-- Helper: when `search_taxid` returns a count, both session attributes
were assigned. -/
theorem search_ret_some_st (gw : Gateway) (st : RetrieverState)
    (taxid : String) (a b : Option Int) (c : Nat)
    (h : (search_taxid gw st taxid a b).ret = some c) :
    ∃ we qk, (search_taxid gw st taxid a b).st.webenv = some we ∧
      (search_taxid gw st taxid a b).st.query_key = some qk := by
  unfold search_taxid at h ⊢
  rcases hr : gw.resolveTaxon taxid with e | org
  · simp [hr] at h
  · rcases hs : gw.esearch (buildSearchTerm taxid a b) with e | res
    · simp [hr, hs] at h
    · by_cases hc : res.count = 0
      · simp [hr, hs, hc] at h
      · exact ⟨res.webenv, res.queryKey, by simp [hr, hs, hc]⟩

/-- Helper: the fetch-fault diagnostic is never the missing-session
diagnostic (the two strings start with different characters). -/
theorem fetchErrMsg_ne_noSessionMsg (e : String) :
    fetchErrMsg e ≠ noSessionMsg := by
  intro h
  have h2 : ("Error fetching records: " ++ e).data = noSessionMsg.data :=
    congrArg String.data h
  rw [String.data_append] at h2
  rw [show ("Error fetching records: ").data
      = 'E' :: "rror fetching records: ".data from rfl] at h2
  rw [show noSessionMsg.data
      = 'N' :: "o search results to fetch. Run search_taxid() first.".data
      from rfl] at h2
  rw [List.cons_append] at h2
  injection h2 with hch _
  exact absurd hch (by decide)

/-- Helper: with both session attributes set, `fetch_records` issues
exactly one gateway request, carrying the clamped batch size and the
stored token and query key, and does not print the missing-session
diagnostic. -/
theorem fetch_records_with_session (gw : Gateway) (st : RetrieverState)
    (start max_records : Int) (we qk : String)
    (hwe : st.webenv = some we) (hqk : st.query_key = some qk) :
    (fetch_records gw st start max_records).calls
      = [⟨start, min max_records 500, we, qk⟩] ∧
    (fetch_records gw st start max_records).msgs ≠ [noSessionMsg] := by
  rcases st with ⟨w, q, c⟩
  dsimp only at hwe hqk
  subst hwe
  subst hqk
  unfold fetch_records
  rcases hgw : gw.efetch ⟨start, min max_records 500, we, qk⟩ with e | recs
  · refine ⟨by simp [hgw], ?_⟩
    simp only [hgw, List.cons.injEq, ne_eq, and_true]
    exact fetchErrMsg_ne_noSessionMsg e
  · refine ⟨by simp [hgw], by simp [hgw]⟩

/-- C2 (counterexample): a filter whose only present bound is `min = 0`
(max absent) does not yield two clauses: Python truthiness makes
`if min_length:` skip the clause for a zero bound, so the emitted query
is the bare taxon clause, a single clause with no `AND`. -/
theorem min_only_zero_one_clause :
    buildSearchTerm "9606" (some 0) none = "txid9606[Organism]" ∧
    searchClauses "9606" (some 0) none = [taxonClause "9606"] ∧
    (searchClauses "9606" (some 0) none).length ≠ 2 := by
  decide

/-- C2 (amended): for every (taxid, filter) pair where the filter has
only the min bound present and that bound is nonzero (max absent), the
emitted search query is exactly two clauses joined by `AND`: the taxon
clause first, then a single min-length clause whose upper end is the
fixed sentinel 1000000. -/
theorem min_only_two_clauses (taxid : String) (m : Int) (h : m ≠ 0) :
    searchClauses taxid (some m) none = [taxonClause taxid, minClause m] ∧
    minClause m = toString m ++ ":1000000[SLEN]" ∧
    buildSearchTerm taxid (some m) none
      = taxonClause taxid ++ " AND " ++ minClause m := by
  refine ⟨?_, rfl, ?_⟩ <;>
    simp [searchClauses, buildSearchTerm, pyTruthy, h]

/-- Witness for `min_only_two_clauses` at taxid "9606", min = 500. -/
theorem min_only_two_clauses_witness :
    (500 : Int) ≠ 0 ∧
    (searchClauses "9606" (some 500) none
        = [taxonClause "9606", minClause 500] ∧
      minClause 500 = toString (500 : Int) ++ ":1000000[SLEN]" ∧
      buildSearchTerm "9606" (some 500) none
        = taxonClause "9606" ++ " AND " ++ minClause 500) :=
  ⟨by decide, min_only_two_clauses "9606" 500 (by decide)⟩

/-- C6 (counterexample): with both bounds present but `max = 0`, the
emitted query has two clauses, not three: Python truthiness makes
`if max_length:` skip the max clause for a zero bound. -/
theorem both_bounds_zero_max_two_clauses :
    (searchClauses "9606" (some 500) (some 0)).length = 2 ∧
    (searchClauses "9606" (some 500) (some 0)).length ≠ 3 ∧
    buildSearchTerm "9606" (some 500) (some 0)
      = "txid9606[Organism] AND 500:1000000[SLEN]" := by
  decide

/-- C6 (amended): for every (taxid, filter) pair where both bounds are
present and nonzero, the emitted query is exactly three clauses joined by
`AND` in the fixed order taxon clause, min-length clause, max-length
clause, the max clause having lower bound 0. -/
theorem both_bounds_three_clauses (taxid : String) (m k : Int)
    (hm : m ≠ 0) (hk : k ≠ 0) :
    searchClauses taxid (some m) (some k)
      = [taxonClause taxid, minClause m, maxClause k] ∧
    maxClause k = "0:" ++ toString k ++ "[SLEN]" ∧
    buildSearchTerm taxid (some m) (some k)
      = taxonClause taxid ++ " AND " ++ minClause m ++ " AND " ++
          maxClause k := by
  refine ⟨?_, rfl, ?_⟩ <;>
    simp [searchClauses, buildSearchTerm, pyTruthy, hm, hk]

/-- Witness for `both_bounds_three_clauses` at taxid "9606",
min = 500, max = 2000. -/
theorem both_bounds_three_clauses_witness :
    (500 : Int) ≠ 0 ∧ (2000 : Int) ≠ 0 ∧
    (searchClauses "9606" (some 500) (some 2000)
        = [taxonClause "9606", minClause 500, maxClause 2000] ∧
      maxClause 2000 = "0:" ++ toString (2000 : Int) ++ "[SLEN]" ∧
      buildSearchTerm "9606" (some 500) (some 2000)
        = taxonClause "9606" ++ " AND " ++ minClause 500 ++ " AND " ++
            maxClause 2000) :=
  ⟨by decide, by decide,
    both_bounds_three_clauses "9606" 500 2000 (by decide) (by decide)⟩

/-- C1 (counterexample): the return value of `search_taxid` on a search
whose gateway response has `Count == 0` is `None` — exactly the same
return value as on a gateway fault (line 46 and line 57 both return
`None`), so the "no matching records" outcome is not distinct from the
error outcome at the level of the returned value. -/
theorem search_empty_vs_fault_same_ret :
    (search_taxid gwEmpty initState "9606" none none).ret = none ∧
    (search_taxid gwFault initState "9606" none none).ret = none ∧
    (search_taxid gwEmpty initState "9606" none none).ret
      = (search_taxid gwFault initState "9606" none none).ret :=
  ⟨rfl, rfl, rfl⟩

/-- C1 (amended): when the gateway's search response has `Count == 0`,
`search_taxid` returns `None` — the same return value as on a gateway
fault — with a "No records found" diagnostic carrying the resolved
organism name (the two cases are told apart only by their printed
diagnostics), and no RetrievalSession is created: the session fields are
left exactly as before the call. -/
theorem search_count_zero_no_session (gw : Gateway) (st : RetrieverState)
    (taxid : String) (a b : Option Int) (organism : String)
    (res : SearchGwResult)
    (h1 : gw.resolveTaxon taxid = Except.ok organism)
    (h2 : gw.esearch (buildSearchTerm taxid a b) = Except.ok res)
    (h3 : res.count = 0) :
    (search_taxid gw st taxid a b).ret = none ∧
    (search_taxid gw st taxid a b).st = st ∧
    (search_taxid gw st taxid a b).msgs
      = [searchingMsg taxid, organismMsg organism taxid,
         noRecordsMsg organism] := by
  refine ⟨?_, ?_, ?_⟩ <;> simp [search_taxid, h1, h2, h3]

/-- Witness for `search_count_zero_no_session` on the concrete
zero-count gateway `gwEmpty`. -/
theorem search_count_zero_no_session_witness :
    gwEmpty.resolveTaxon "9606" = Except.ok "Homo sapiens" ∧
    gwEmpty.esearch (buildSearchTerm "9606" none none)
      = Except.ok ⟨0, "MCID_abc", "1"⟩ ∧
    (⟨0, "MCID_abc", "1"⟩ : SearchGwResult).count = 0 ∧
    ((search_taxid gwEmpty initState "9606" none none).ret = none ∧
      (search_taxid gwEmpty initState "9606" none none).st = initState ∧
      (search_taxid gwEmpty initState "9606" none none).msgs
        = [searchingMsg "9606", organismMsg "Homo sapiens" "9606",
           noRecordsMsg "Homo sapiens"]) :=
  ⟨rfl, rfl, rfl,
    search_count_zero_no_session gwEmpty initState "9606" none none
      "Homo sapiens" ⟨0, "MCID_abc", "1"⟩ rfl rfl rfl⟩

/-- C3: for every call of `fetch_records` with `max_records > 0`, every
fetch request actually issued to the gateway carries
`retmax = min(max_records, 500)`; in particular it never exceeds 500. -/
theorem fetch_retmax_clamped (gw : Gateway) (st : RetrieverState)
    (start max_records : Int) (_h : 0 < max_records) :
    ∀ req ∈ (fetch_records gw st start max_records).calls,
      req.retmax = min max_records 500 ∧ req.retmax ≤ 500 := by
  intro req hreq
  rcases st with ⟨w, q, c⟩
  rcases w with _ | we
  · simp [fetch_records] at hreq
  · rcases q with _ | qk
    · simp [fetch_records] at hreq
    · unfold fetch_records at hreq
      rcases hgw : gw.efetch ⟨start, min max_records 500, we, qk⟩
          with e | recs <;>
        simp [hgw] at hreq <;>
        subst hreq <;>
        exact ⟨rfl, min_le_right _ _⟩

/-- Witness for `fetch_retmax_clamped`: `fetch_records(0, 10000)` from a
state with a session issues a request with `retmax = min 10000 500`. -/
theorem fetch_retmax_clamped_witness :
    (0 : Int) < 10000 ∧
    ∀ req ∈ (fetch_records gwOk stSession 0 10000).calls,
      req.retmax = min (10000 : Int) 500 ∧ req.retmax ≤ 500 :=
  ⟨by decide, fetch_retmax_clamped gwOk stSession 0 10000 (by decide)⟩

/-- C4: when either session attribute has never been set, `fetch_records`
returns the empty list together with the missing-session diagnostic and
issues no gateway fetch request (and, being a total function of its
inputs, raises nothing). -/
theorem fetch_no_session_empty (gw : Gateway) (st : RetrieverState)
    (start max_records : Int)
    (h : st.webenv = none ∨ st.query_key = none) :
    (fetch_records gw st start max_records).ret = [] ∧
    (fetch_records gw st start max_records).msgs = [noSessionMsg] ∧
    (fetch_records gw st start max_records).calls = [] := by
  rcases st with ⟨w, q, c⟩
  rcases w with _ | we
  · exact ⟨rfl, rfl, rfl⟩
  · rcases q with _ | qk
    · exact ⟨rfl, rfl, rfl⟩
    · rcases h with h | h <;> simp at h

/-- Witness for `fetch_no_session_empty` on the fresh retriever state. -/
theorem fetch_no_session_empty_witness :
    (initState.webenv = none ∨ initState.query_key = none) ∧
    ((fetch_records gwOk initState 0 10).ret = [] ∧
      (fetch_records gwOk initState 0 10).msgs = [noSessionMsg] ∧
      (fetch_records gwOk initState 0 10).calls = []) :=
  ⟨Or.inl rfl, fetch_no_session_empty gwOk initState 0 10 (Or.inl rfl)⟩

/-- C5: a gateway fault raised during taxon resolution (step 1), or
during the search request (step 3) after resolution succeeded, is caught:
`search_taxid` returns `None` (non-fatal), prints the error diagnostic,
and leaves the session state exactly as before the call — no partially
initialized session is ever exposed. -/
theorem search_fault_state_unchanged (gw : Gateway) (st : RetrieverState)
    (taxid : String) (a b : Option Int) (e : String)
    (h : gw.resolveTaxon taxid = Except.error e ∨
      (∃ org, gw.resolveTaxon taxid = Except.ok org ∧
        gw.esearch (buildSearchTerm taxid a b) = Except.error e)) :
    (search_taxid gw st taxid a b).st = st ∧
    (search_taxid gw st taxid a b).ret = none ∧
    searchErrMsg taxid e ∈ (search_taxid gw st taxid a b).msgs := by
  rcases h with he | ⟨org, hok, he⟩
  · refine ⟨?_, ?_, ?_⟩ <;> simp [search_taxid, he]
  · refine ⟨?_, ?_, ?_⟩ <;> simp [search_taxid, hok, he]

/-- Witness for `search_fault_state_unchanged` on the concrete faulting
gateway `gwFault` (fault in step 3, after resolution). -/
theorem search_fault_state_unchanged_witness :
    (gwFault.resolveTaxon "9606" = Except.error "HTTP Error 500" ∨
      (∃ org, gwFault.resolveTaxon "9606" = Except.ok org ∧
        gwFault.esearch (buildSearchTerm "9606" none none)
          = Except.error "HTTP Error 500")) ∧
    ((search_taxid gwFault initState "9606" none none).st = initState ∧
      (search_taxid gwFault initState "9606" none none).ret = none ∧
      searchErrMsg "9606" "HTTP Error 500"
        ∈ (search_taxid gwFault initState "9606" none none).msgs) :=
  ⟨Or.inr ⟨"Homo sapiens", rfl, rfl⟩,
    search_fault_state_unchanged gwFault initState "9606" none none
      "HTTP Error 500" (Or.inr ⟨"Homo sapiens", rfl, rfl⟩)⟩

/-- C7: `fetch_records` reads the session attributes but never mutates
them — for every gateway, state, and arguments, the retriever state after
the call equals the state before it. -/
theorem fetch_state_unchanged (gw : Gateway) (st : RetrieverState)
    (start max_records : Int) :
    (fetch_records gw st start max_records).st = st :=
  fetch_records_st gw st start max_records

/-- C8: with the gateway modelled as a fixed function of its request, a
second `fetch_records` call with identical arguments, made from the state
the first call left behind, produces the identical output — in particular
the identical ordered record sequence. -/
theorem fetch_idempotent (gw : Gateway) (st : RetrieverState)
    (start max_records : Int) :
    fetch_records gw (fetch_records gw st start max_records).st
        start max_records
      = fetch_records gw st start max_records := by
  rw [fetch_records_st]

/-- C9: the CSV report is the fixed header row followed by exactly one
row per record in input order, while the plot reads its accession and
length series off the same records stably sorted by descending sequence
length — a permutation of the input, so the two outputs use different
orders of the same record set. -/
theorem report_rows_and_plot_order (records : List SeqRecord) :
    generate_csv_report records = headerRow :: records.map recordRow ∧
    (generate_csv_report records).length = records.length + 1 ∧
    generate_plot records
      = ((sortDesc records).map SeqRecord.id,
         (sortDesc records).map recLen) ∧
    (sortDesc records).Perm records ∧
    List.Sorted (fun a b => recLen b ≤ recLen a) (sortDesc records) :=
  ⟨rfl, by simp [generate_csv_report],
    rfl, List.perm_insertionSort _ _, List.sorted_insertionSort _ _⟩

/-- C10: after a successful search, a later failed search (one returning
`None`) leaves the earlier session attributes in place, so a subsequent
`fetch_records` does not report the missing-session condition but issues
its gateway request with the earlier (stale) token and query key. -/
theorem stale_session_after_failed_search (gw1 gw2 gw3 : Gateway)
    (st0 : RetrieverState) (t1 t2 : String) (a1 b1 a2 b2 : Option Int)
    (start max_records : Int) (c : Nat)
    (h1 : (search_taxid gw1 st0 t1 a1 b1).ret = some c)
    (h2 : (search_taxid gw2 (search_taxid gw1 st0 t1 a1 b1).st
        t2 a2 b2).ret = none) :
    (search_taxid gw2 (search_taxid gw1 st0 t1 a1 b1).st t2 a2 b2).st
      = (search_taxid gw1 st0 t1 a1 b1).st ∧
    ∃ we qk,
      (search_taxid gw1 st0 t1 a1 b1).st.webenv = some we ∧
      (search_taxid gw1 st0 t1 a1 b1).st.query_key = some qk ∧
      (fetch_records gw3
          (search_taxid gw2 (search_taxid gw1 st0 t1 a1 b1).st
            t2 a2 b2).st start max_records).calls
        = [⟨start, min max_records 500, we, qk⟩] ∧
      (fetch_records gw3
          (search_taxid gw2 (search_taxid gw1 st0 t1 a1 b1).st
            t2 a2 b2).st start max_records).msgs ≠ [noSessionMsg] := by
  have hstEq := search_ret_none_st gw2 _ t2 a2 b2 h2
  obtain ⟨we, qk, hwe, hqk⟩ := search_ret_some_st gw1 st0 t1 a1 b1 c h1
  rw [hstEq]
  obtain ⟨hcalls, hmsgs⟩ := fetch_records_with_session gw3 _
    start max_records we qk hwe hqk
  exact ⟨rfl, we, qk, hwe, hqk, hcalls, hmsgs⟩

/-- Witness for `stale_session_after_failed_search`: a successful search
on `gwOk`, then a failed search on `gwFault`, then a fetch. -/
theorem stale_session_after_failed_search_witness :
    (search_taxid gwOk initState "9606" none none).ret = some 42 ∧
    (search_taxid gwFault (search_taxid gwOk initState "9606" none none).st
        "10090" none none).ret = none ∧
    ((search_taxid gwFault
        (search_taxid gwOk initState "9606" none none).st
        "10090" none none).st
      = (search_taxid gwOk initState "9606" none none).st ∧
    ∃ we qk,
      (search_taxid gwOk initState "9606" none none).st.webenv = some we ∧
      (search_taxid gwOk initState "9606" none none).st.query_key
        = some qk ∧
      (fetch_records gwOk
          (search_taxid gwFault
            (search_taxid gwOk initState "9606" none none).st
            "10090" none none).st 0 10).calls
        = [⟨0, min (10 : Int) 500, we, qk⟩] ∧
      (fetch_records gwOk
          (search_taxid gwFault
            (search_taxid gwOk initState "9606" none none).st
            "10090" none none).st 0 10).msgs ≠ [noSessionMsg]) :=
  ⟨rfl, rfl,
    stale_session_after_failed_search gwOk gwFault gwOk initState
      "9606" "10090" none none none none 0 10 42 rfl rfl⟩

end PBIO
